import Mathlib

/-!
Verification of the election lifecycle and ballot-integrity engine of the
dilg-voting-backend repository (Django app `elections`).

Shallow embedding conventions:
- Database tables (`elections/models.py`) become Lean structures; the store is
  a record of lists of rows.
- Timestamps are modelled as `Int` (a point on a linear time line); `None`
  timestamp fields become `Option Int`.
- Each view function of `elections/views.py` becomes a pure function from the
  store (plus the request data and the current time) to a response paired with
  the successor store.
- Django commits each ORM statement as it executes unless the code is inside
  `transaction.atomic()`; a `transaction.atomic()` block commits when control
  leaves the block without an exception -- including via an early `return`.
  The embedding of `submit_ballot` reproduces exactly that: the early return
  inside the atomic block keeps the rows created before it.
-/

/-- Row of the `Election` table (`elections/models.py`, class `Election`).
Timestamp fields are `Int`; `results_at` and `results_published_at` are
nullable in the model, hence `Option Int`. -/
structure Election where
  id : Nat
  name : String
  nomination_start : Int
  nomination_end : Int
  voting_start : Int
  voting_end : Int
  results_at : Option Int
  results_published : Bool
  results_published_at : Option Int
  is_active : Bool
deriving DecidableEq

/-- Row of the `Position` table (`elections/models.py`, class `Position`). -/
structure Position where
  id : Nat
  election_id : Nat
  name : String
  is_active : Bool
  seats : Nat
  display_order : Nat
deriving DecidableEq

/-- Row of the `Candidate` table (`elections/models.py`, class `Candidate`).
The photo file is modelled by its name. -/
structure Candidate where
  id : Nat
  position_id : Nat
  full_name : String
  batch_year : Nat
  campus_chapter : String
  contact_email : String
  contact_phone : String
  bio : String
  photo : Option String
  is_official : Bool
  source_nomination : Option Nat
deriving DecidableEq

/-- Row of the `Voter` table (`elections/models.py`, class `Voter`).
The hashed pin is irrelevant to the claims and is kept as an opaque string. -/
structure Voter where
  id : Nat
  voter_id : String
  name : String
  privacy_consent : Bool
  pin : String
  has_voted : Bool
  is_active : Bool
  session_token : Option String
deriving DecidableEq

/-- Row of the `Nomination` table (`elections/models.py`, class `Nomination`). -/
structure Nomination where
  id : Nat
  election_id : Nat
  position_id : Nat
  nominator_id : Nat
  nominee_full_name : String
  nominee_batch_year : Nat
  nominee_campus_chapter : String
  contact_email : String
  contact_phone : String
  reason : String
  nominee_photo : Option String
  is_good_standing : Bool
  promoted : Bool
  promoted_at : Option Int
deriving DecidableEq

/-- Row of the `Vote` table (`elections/models.py`, class `Vote`). -/
structure Vote where
  voter_id : Nat
  position_id : Nat
  candidate_id : Nat
deriving DecidableEq

/-- The persistent store: one list of rows per table. -/
structure Store where
  elections : List Election
  positions : List Position
  candidates : List Candidate
  voters : List Voter
  nominations : List Nomination
  votes : List Vote
deriving DecidableEq

/-- Election.is_nomination_open (`elections/models.py` lines 54-56):
`self.nomination_start <= now <= self.nomination_end`, both ends inclusive. -/
def is_nomination_open (e : Election) (now : Int) : Bool :=
  decide (e.nomination_start ≤ now ∧ now ≤ e.nomination_end)

/-- Election.is_voting_open (`elections/models.py` lines 58-60):
`self.voting_start <= now <= self.voting_end`, both ends inclusive. -/
def is_voting_open (e : Election) (now : Int) : Bool :=
  decide (e.voting_start ≤ now ∧ now ≤ e.voting_end)

/-- Election.phase (`elections/models.py` lines 62-75). The Python guards
`self.nomination_start and ...`, `self.nomination_end and ...`,
`self.voting_end and ...` test datetime truthiness; a datetime object is
always truthy, so they are identically true and are dropped here.
`self.results_at or self.voting_end` picks `results_at` when it is non-null,
which is `Option.getD`. -/
def phase (e : Election) (now : Int) : String :=
  if now < e.nomination_start then "upcoming"
  else if is_nomination_open e now then "nomination"
  else if now < e.voting_start then "between"
  else if is_voting_open e now then "voting"
  else if now < (e.results_at.getD e.voting_end) then "closed_pending_results"
  else "closed"

/-- get_active_election (`elections/views.py` lines 45-46):
`Election.objects.filter(is_active=True).order_by("-nomination_start").first()`.
The fold returns the first row attaining the maximal `nomination_start`
among the rows flagged active (first-come order breaks ties, matching a stable
descending sort). -/
def get_active_election (s : Store) : Option Election :=
  (s.elections.filter (fun e => e.is_active)).foldl
    (fun acc e =>
      match acc with
      | none => some e
      | some b => if b.nomination_start < e.nomination_start then some e else some b)
    none

/-- C3: for every election and every time `now`, `is_nomination_open` returns
true iff `nomination_start <= now <= nomination_end` and `is_voting_open`
returns true iff `voting_start <= now <= voting_end`, both endpoints
inclusive. Both are pure functions of the election record and `now` by
construction (no store argument, no store result). -/
theorem C3_phase_checks_boundary_inclusive (e : Election) (now : Int) :
    (is_nomination_open e now = true ↔
      (e.nomination_start ≤ now ∧ now ≤ e.nomination_end)) ∧
    (is_voting_open e now = true ↔
      (e.voting_start ≤ now ∧ now ≤ e.voting_end)) := by
  constructor
  · simp [is_nomination_open]
  · simp [is_voting_open]

/-- C10: under the documented timestamp ordering invariant, an election whose
`results_at` is null is never in phase `closed_pending_results`: strictly
after `voting_end` its phase is `closed` directly; and the phase
`closed_pending_results` is reachable only when `results_at` is set to a time
strictly later than `voting_end`. -/
theorem C10_no_pending_phase_without_results_at (e : Election) (now : Int)
    (h1 : e.nomination_start ≤ e.nomination_end)
    (h2 : e.nomination_end < e.voting_start)
    (h3 : e.voting_start < e.voting_end) :
    (e.results_at = none → e.voting_end < now → phase e now = "closed") ∧
    (phase e now = "closed_pending_results" →
      ∃ r, e.results_at = some r ∧ e.voting_end < r) := by
  constructor
  · intro hra hnow
    rw [phase]
    rw [if_neg (by omega)]
    rw [if_neg (by simp [is_nomination_open]; omega)]
    rw [if_neg (by omega)]
    rw [if_neg (by simp [is_voting_open]; omega)]
    rw [hra]
    simp only [Option.getD]
    rw [if_neg (by omega)]
  · intro hp
    rw [phase] at hp
    split_ifs at hp with hns hnom hvs hvote hpend
    · exact absurd hp (by decide)
    · exact absurd hp (by decide)
    · exact absurd hp (by decide)
    · exact absurd hp (by decide)
    · have hva : ¬(e.voting_start ≤ now ∧ now ≤ e.voting_end) := by
        simpa [is_voting_open] using hvote
      have hve : e.voting_end < now := by omega
      cases hra : e.results_at with
      | none =>
          rw [hra] at hpend
          simp only [Option.getD] at hpend
          omega
      | some r =>
          rw [hra] at hpend
          simp only [Option.getD] at hpend
          exact ⟨r, rfl, by omega⟩
    · exact absurd hp (by decide)

/-- Closed instance of C10 at a concrete election: `results_at = none`,
ordered windows, a time strictly after `voting_end`; the phase is `closed`. -/
def cElectionC10 : Election :=
  { id := 1, name := "E", nomination_start := 0, nomination_end := 1,
    voting_start := 2, voting_end := 3, results_at := none,
    results_published := false, results_published_at := none, is_active := true }

theorem C10_witness : phase cElectionC10 10 = "closed" :=
  (C10_no_pending_phase_without_results_at cElectionC10 10 (by decide) (by decide)
    (by decide)).1 rfl (by decide)

/-- Error taxonomy of the response codes the embedded views can produce
(spec section 7; each variant corresponds to one literal error response in
`elections/views.py`). -/
inductive ApiError where
  | unauthenticated
  | consentRequired
  | alreadyVoted
  | noActiveElection
  | phaseClosed
  | invalidInput
  | incompleteBallot
  | invalidSelection
  | notFound
  | multipleObjects
deriving DecidableEq

/-- Result of the ballot submission view. -/
inductive BallotResult where
  | ok
  | err (e : ApiError)
deriving DecidableEq

/-- get_authenticated_voter (`elections/views.py` lines 49-56): the header
token resolved by exact match on `session_token` with `is_active=True`; a
missing or empty header short-circuits to None (an empty Python string is
falsy). -/
def auth_voter (s : Store) (token : String) : Option Voter :=
  if token = "" then none
  else s.voters.find? (fun v => v.session_token == some token && v.is_active)

/-- Insertion step of a stable insertion sort with a boolean comparator. -/
def insort (le : α → α → Bool) (a : α) : List α → List α
  | [] => [a]
  | b :: t => if le a b then a :: b :: t else b :: insort le a t

/-- Stable insertion sort with a boolean comparator, modelling `order_by`. -/
def sortWith (le : α → α → Bool) (l : List α) : List α :=
  l.foldr (insort le) []

/-- The queryset `Position.objects.filter(election=election,
is_active=True).order_by("id")` of `submit_ballot`
(`elections/views.py` lines 324-326). -/
def active_positions (s : Store) (e : Election) : List Position :=
  sortWith (fun p q => p.id ≤ q.id)
    (s.positions.filter (fun p => p.election_id == e.id && p.is_active))

/-- The set of expected position ids, `{str(p.id) for p in active_positions}`
(`elections/views.py` line 327); ids are kept as numbers since the
view stringifies both sides uniformly before comparing. -/
def expected_position_ids (s : Store) (e : Election) : List Nat :=
  (active_positions s e).map (fun p => p.id)

/-- Python set equality of the two key collections
(`set(map(str, votes_payload.keys())) != expected_ids`,
`elections/views.py` line 330). -/
def eq_as_set (a b : List Nat) : Bool :=
  a.all (fun x => b.contains x) && b.all (fun x => a.contains x)

/-- Dictionary lookup `votes_payload.get(str(position.id))`
(`elections/views.py` line 336). -/
def sel_lookup (sels : List (Nat × Nat)) (pid : Nat) : Option Nat :=
  (sels.find? (fun kv => kv.1 == pid)).map (fun kv => kv.2)

/-- The pre-validation loop of `submit_ballot` (`elections/views.py` lines
334-348): for each active position resolve
`Candidate.objects.get(id=candidate_id, position=position,
is_official=True)`; a missing candidate yields the invalid-candidate
response before any write happens. -/
def resolve_selections (s : Store) (ps : List Position)
    (sels : List (Nat × Nat)) : Except ApiError (List (Position × Candidate)) :=
  match ps with
  | [] => .ok []
  | p :: rest =>
    match sel_lookup sels p.id with
    | none => .error .invalidSelection
    | some cid =>
      match s.candidates.find?
          (fun c => c.id == cid && c.position_id == p.id && c.is_official) with
      | none => .error .invalidSelection
      | some c => (resolve_selections s rest sels).map (fun l => (p, c) :: l)

/-- The body of the `transaction.atomic()` block of `submit_ballot`
(`elections/views.py` lines 350-356). For each selection in position order:
if `Vote.objects.filter(voter=voter, position=position).exists()` the view
returns the already-voted response FROM INSIDE the atomic block; leaving a
`transaction.atomic()` block via `return` is a normal exit, so Django
commits the votes created by the earlier iterations. The function therefore
returns the error together with the vote rows as committed at that point. -/
def commit_loop (v : Voter) (pending : List (Position × Candidate))
    (votes : List Vote) : Option ApiError × List Vote :=
  match pending with
  | [] => (none, votes)
  | (p, c) :: rest =>
    if votes.any (fun w => w.voter_id == v.id && w.position_id == p.id) then
      (some .alreadyVoted, votes)
    else
      commit_loop v rest (votes ++ [⟨v.id, p.id, c.id⟩])

/-- The write `voter.has_voted = True; voter.save(...)`
(`elections/views.py` lines 358-359). -/
def set_has_voted (s : Store) (vid : Nat) : Store :=
  { s with voters :=
      s.voters.map (fun v => if v.id = vid then { v with has_voted := true } else v) }

/-- submit_ballot (`elections/views.py` lines 299-361), end to end:
authentication, consent, fast has_voted check, active election, voting
window, serializer validation (`BallotSubmitSerializer.validate` rejects an
empty votes dict with "votes is required"), set equality of the submitted
keys against the active position ids, candidate pre-validation, then the
atomic block. -/
def submit_ballot (s : Store) (token : String) (sels : List (Nat × Nat))
    (now : Int) : BallotResult × Store :=
  match auth_voter s token with
  | none => (.err .unauthenticated, s)
  | some v =>
    if !v.privacy_consent then (.err .consentRequired, s)
    else if v.has_voted then (.err .alreadyVoted, s)
    else
      match get_active_election s with
      | none => (.err .noActiveElection, s)
      | some e =>
        if !is_voting_open e now then (.err .phaseClosed, s)
        else if sels.isEmpty then (.err .invalidInput, s)
        else if !eq_as_set (sels.map (fun kv => kv.1)) (expected_position_ids s e)
          then (.err .incompleteBallot, s)
        else
          match resolve_selections s (active_positions s e) sels with
          | .error er => (.err er, s)
          | .ok pairs =>
            match commit_loop v pairs s.votes with
            | (some er, votes1) => (.err er, { s with votes := votes1 })
            | (none, votes1) =>
                (.ok, set_has_voted { s with votes := votes1 } v.id)

/-- Voter used by the C1 failing input: authenticated, consenting, not yet
flagged as having voted. -/
def cVoterC1 : Voter :=
  { id := 7, voter_id := "HCAD-0007", name := "V", privacy_consent := true,
    pin := "x", has_voted := false, is_active := true,
    session_token := some "tok" }

/-- Election used by the C1 failing input: active, voting open at time 5. -/
def cElectionC1 : Election :=
  { id := 1, name := "E", nomination_start := -10, nomination_end := -8,
    voting_start := 0, voting_end := 10, results_at := none,
    results_published := false, results_published_at := none,
    is_active := true }

/-- First active position of the C1 election. -/
def cPos1C1 : Position :=
  { id := 1, election_id := 1, name := "president", is_active := true,
    seats := 1, display_order := 0 }

/-- Second active position of the C1 election. -/
def cPos2C1 : Position :=
  { id := 2, election_id := 1, name := "secretary", is_active := true,
    seats := 1, display_order := 1 }

/-- Official candidate for position 1 of the C1 election. -/
def cCand11C1 : Candidate :=
  { id := 11, position_id := 1, full_name := "Alice", batch_year := 2020,
    campus_chapter := "", contact_email := "", contact_phone := "",
    bio := "", photo := none, is_official := true, source_nomination := none }

/-- Official candidate for position 2 of the C1 election. -/
def cCand22C1 : Candidate :=
  { id := 22, position_id := 2, full_name := "Bob", batch_year := 2020,
    campus_chapter := "", contact_email := "", contact_phone := "",
    bio := "", photo := none, is_official := true, source_nomination := none }

/-- Failing input for C1: an active election with two active positions, one
official candidate per position, and a pre-existing Vote row for (voter 7,
position 2) while `has_voted` is still false. Such a row is reachable
through the admin Vote CRUD route (`elections/urls.py` registers a
VoteViewSet) or through a previous partially committed ballot. -/
def cStoreC1 : Store :=
  { elections := [cElectionC1],
    positions := [cPos1C1, cPos2C1],
    candidates := [cCand11C1, cCand22C1],
    voters := [cVoterC1],
    nominations := [],
    votes := [{ voter_id := 7, position_id := 2, candidate_id := 22 }] }

/-- C1: the claim demands that when the atomic commit step finds an existing
Vote for (voter, position) the call fails AlreadyVoted with a FULL rollback.
The code violates the rollback half: it returns the AlreadyVoted response
from inside the `transaction.atomic()` block, and leaving the block via
`return` is a normal exit, which commits. At the failing input the view
reports AlreadyVoted, yet the Vote (voter 7, position 1, candidate 11)
created by the first loop iteration stays in the store, so the store is not
left as it was. `has_voted` itself is indeed unchanged on this path. -/
theorem C1_partial_commit_at_failing_input :
    (submit_ballot cStoreC1 "tok" [(1, 11), (2, 22)] 5).1 =
        .err .alreadyVoted ∧
    (submit_ballot cStoreC1 "tok" [(1, 11), (2, 22)] 5).2.votes =
        [{ voter_id := 7, position_id := 2, candidate_id := 22 },
         { voter_id := 7, position_id := 1, candidate_id := 11 }] ∧
    (submit_ballot cStoreC1 "tok" [(1, 11), (2, 22)] 5).2 ≠ cStoreC1 ∧
    (submit_ballot cStoreC1 "tok" [(1, 11), (2, 22)] 5).2.voters =
        cStoreC1.voters := by
  refine ⟨rfl, rfl, ?_, rfl⟩
  decide

/-- C2 as stated: every authenticated, consenting, not-yet-voted voter in an
open voting phase whose submitted key set differs from the active position
id set is rejected before any Vote is created -- with IncompleteBallot when
the selections map is nonempty, and with InvalidInput when it is empty
(`BallotSubmitSerializer.validate` rejects an empty votes dict as "votes is
required" before the set comparison is reached). Either way the store is
returned untouched. -/
theorem C2_incomplete_ballot_rejected (s : Store) (tok : String)
    (sels : List (Nat × Nat)) (now : Int) (v : Voter) (e : Election)
    (hv : auth_voter s tok = some v)
    (hc : v.privacy_consent = true)
    (hnv : v.has_voted = false)
    (he : get_active_election s = some e)
    (ho : is_voting_open e now = true)
    (hk : eq_as_set (sels.map (fun kv => kv.1)) (expected_position_ids s e)
            = false) :
    (sels = [] → submit_ballot s tok sels now = (.err .invalidInput, s)) ∧
    (sels ≠ [] → submit_ballot s tok sels now = (.err .incompleteBallot, s)) := by
  constructor
  · intro h
    subst h
    simp [submit_ballot, hv, hc, hnv, he, ho]
  · intro h
    have hne : sels.isEmpty = false := by
      cases sels with
      | nil => exact absurd rfl h
      | cons a t => rfl
    simp [submit_ballot, hv, hc, hnv, he, ho, hne, hk]

/-- Voter of the C2 concrete store. -/
def cVoterC2 : Voter :=
  { id := 3, voter_id := "HCAD-0003", name := "W", privacy_consent := true,
    pin := "x", has_voted := false, is_active := true,
    session_token := some "tok" }

/-- Election of the C2 concrete store, voting open at time 5. -/
def cElectionC2 : Election :=
  { id := 1, name := "E", nomination_start := -10, nomination_end := -8,
    voting_start := 0, voting_end := 10, results_at := none,
    results_published := false, results_published_at := none,
    is_active := true }

/-- The only active position of the C2 concrete store. -/
def cPosC2 : Position :=
  { id := 1, election_id := 1, name := "president", is_active := true,
    seats := 1, display_order := 0 }

/-- The official candidate of the C2 concrete store. -/
def cCandC2 : Candidate :=
  { id := 5, position_id := 1, full_name := "Alice", batch_year := 2020,
    campus_chapter := "", contact_email := "", contact_phone := "",
    bio := "", photo := none, is_official := true, source_nomination := none }

/-- Concrete store for C2: one active election with exactly one active
position (id 1). -/
def cStoreC2 : Store :=
  { elections := [cElectionC2],
    positions := [cPosC2],
    candidates := [cCandC2],
    voters := [cVoterC2],
    nominations := [],
    votes := [] }

/-- C2 counterexample: the empty selections map is a strict subset of the
active position id set {1}, and every precondition of the claim holds
(authenticated, consenting, has_voted false, voting open), yet the call
fails with the serializer validation error (InvalidInput, "votes is
required"), not with IncompleteBallot as the claim states. -/
theorem C2_empty_ballot_counterexample :
    auth_voter cStoreC2 "tok" = some cVoterC2 ∧
    cVoterC2.privacy_consent = true ∧
    cVoterC2.has_voted = false ∧
    get_active_election cStoreC2 = some cElectionC2 ∧
    is_voting_open cElectionC2 5 = true ∧
    expected_position_ids cStoreC2 cElectionC2 = [1] ∧
    eq_as_set (([] : List (Nat × Nat)).map (fun kv => kv.1))
      (expected_position_ids cStoreC2 cElectionC2) = false ∧
    submit_ballot cStoreC2 "tok" [] 5 = (.err .invalidInput, cStoreC2) ∧
    BallotResult.err .invalidInput ≠ BallotResult.err .incompleteBallot := by
  refine ⟨rfl, rfl, rfl, rfl, rfl, rfl, rfl, rfl, ?_⟩
  decide

theorem C2_witness :
    submit_ballot cStoreC2 "tok" [(99, 5)] 5 =
      (.err .incompleteBallot, cStoreC2) :=
  (C2_incomplete_ballot_rejected cStoreC2 "tok" [(99, 5)] 5 cVoterC2
    cElectionC2 rfl rfl rfl rfl rfl rfl).2 (by decide)

/-- One candidate entry of the public results payload
(`elections/views.py` lines 191-202). -/
structure ResultEntry where
  id : Nat
  full_name : String
  batch_year : Nat
  campus_chapter : String
  votes : Nat
  winner : Bool
deriving DecidableEq

/-- One position block of the public results payload
(`elections/views.py` lines 204-210). -/
structure PositionResult where
  position_id : Nat
  position : String
  candidates : List ResultEntry
deriving DecidableEq

/-- The count `Vote.objects.filter(position=pos, candidate=cand).count()`
(`elections/views.py` line 189). -/
def candidate_vote_count (s : Store) (p : Position) (c : Candidate) : Nat :=
  (s.votes.filter
    (fun w => w.position_id == p.id && w.candidate_id == c.id)).length

/-- Lexicographic comparison of char lists by code point; the recursion
mirrors the standard string order but reduces inside the kernel. -/
def strltAux : List Char → List Char → Bool
  | [], [] => false
  | [], _ :: _ => true
  | _ :: _, [] => false
  | x :: xs, y :: ys =>
    if x.toNat < y.toNat then true
    else if y.toNat < x.toNat then false
    else strltAux xs ys

/-- Strict lexicographic string order used by the `order_by` name sorts. -/
def str_lt (a b : String) : Bool := strltAux a.data b.data

/-- The queryset `Candidate.objects.filter(position=pos,
is_official=True).order_by("full_name")` (`elections/views.py` line 184). -/
def official_candidates_sorted (s : Store) (p : Position) : List Candidate :=
  sortWith (fun a b => str_lt a.full_name b.full_name
      || a.full_name == b.full_name)
    (s.candidates.filter (fun c => c.position_id == p.id && c.is_official))

/-- The candidates of one position paired with their vote counts (the first
loop of `published_results`, `elections/views.py` lines 186-199). -/
def counted_candidates (s : Store) (p : Position) : List (Candidate × Nat) :=
  (official_candidates_sorted s p).map
    (fun c => (c, candidate_vote_count s p c))

/-- The running maximum `max_votes` of the first loop
(`elections/views.py` lines 187 and 190): the maximum of the counts,
starting from 0. -/
def position_max (s : Store) (p : Position) : Nat :=
  ((counted_candidates s p).map (fun x => x.2)).foldl Nat.max 0

/-- One serialized candidate entry, with the winner flag of the second loop:
`entry["winner"] = max_votes > 0 and entry["votes"] == max_votes`
(`elections/views.py` lines 201-202). -/
def mk_entry (c : Candidate) (n m : Nat) : ResultEntry :=
  { id := c.id, full_name := c.full_name, batch_year := c.batch_year,
    campus_chapter := c.campus_chapter, votes := n,
    winner := decide (0 < m) && decide (n = m) }

/-- The per-position block of the results payload
(`elections/views.py` lines 183-210). -/
def position_result (s : Store) (p : Position) : PositionResult :=
  { position_id := p.id, position := p.name,
    candidates := (counted_candidates s p).map
      (fun x => mk_entry x.1 x.2 (position_max s p)) }

/-- published_results (`elections/views.py` lines 166-222): `none` models the
published:false responses (no active election, or not yet published); the
payload lists the active positions of the active election ordered by
(display_order, name). -/
def published_results (s : Store) : Option (List PositionResult) :=
  match get_active_election s with
  | none => none
  | some e =>
    if e.results_published then
      some ((sortWith
        (fun p q => p.display_order < q.display_order
          || (p.display_order == q.display_order
              && (str_lt p.name q.name || p.name == q.name)))
        (s.positions.filter (fun p => p.election_id == e.id && p.is_active))).map
          (position_result s))
    else none

/-- The maximum vote count among the entries of one payload position. -/
def maxVotes (pr : PositionResult) : Nat :=
  (pr.candidates.map (fun entry => entry.votes)).foldl Nat.max 0

/-- The winner flag of every entry produced by `position_result` is true
exactly when the entry's count equals the positive maximum of its block. -/
theorem position_result_winner_mem (s : Store) (p : Position)
    (entry : ResultEntry) (h : entry ∈ (position_result s p).candidates) :
    (entry.winner = true ↔
      (0 < maxVotes (position_result s p) ∧
        entry.votes = maxVotes (position_result s p))) := by
  have hmax : maxVotes (position_result s p) = position_max s p := by
    simp only [maxVotes, position_result, position_max, List.map_map]
    rfl
  rw [hmax]
  simp only [position_result, List.mem_map] at h
  obtain ⟨x, hx, rfl⟩ := h
  simp [mk_entry]

/-- C4: the payload is produced only when the active election has
`results_published = true`, and a candidate entry carries `winner = true`
iff its vote count equals the maximum count of its position block and that
maximum is strictly positive (all tied candidates at a positive maximum are
winners; an all-zero position has none). -/
theorem C4_winner_flag (s : Store) :
    (∀ payload, published_results s = some payload →
      ∃ e, get_active_election s = some e ∧ e.results_published = true) ∧
    (∀ payload pr entry, published_results s = some payload →
      pr ∈ payload → entry ∈ pr.candidates →
      (entry.winner = true ↔
        (0 < maxVotes pr ∧ entry.votes = maxVotes pr))) := by
  constructor
  · intro payload hpub
    cases hget : get_active_election s with
    | none => simp [published_results, hget] at hpub
    | some e =>
        by_cases hrp : e.results_published
        · exact ⟨e, rfl, hrp⟩
        · simp [published_results, hget, hrp] at hpub
  · intro payload pr entry hpub hpr hentry
    cases hget : get_active_election s with
    | none => simp [published_results, hget] at hpub
    | some e =>
        by_cases hrp : e.results_published
        · simp [published_results, hget, hrp] at hpub
          subst hpub
          obtain ⟨p, hp, rfl⟩ := List.mem_map.mp hpr
          exact position_result_winner_mem s p entry hentry
        · simp [published_results, hget, hrp] at hpub

/-- Vote row of the C4 scenario store (all votes are for position 1). -/
def mkVoteC4 (vid cid : Nat) : Vote :=
  { voter_id := vid, position_id := 1, candidate_id := cid }

/-- Election of the C4 scenario store: active, results published. -/
def cElectionC4 : Election :=
  { id := 1, name := "E", nomination_start := 0, nomination_end := 1,
    voting_start := 2, voting_end := 3, results_at := none,
    results_published := true, results_published_at := some 100,
    is_active := true }

/-- Position of the C4 scenario store. -/
def cPosC4 : Position :=
  { id := 1, election_id := 1, name := "president", is_active := true,
    seats := 1, display_order := 0 }

/-- Candidate row of the C4 scenario store. -/
def mkCandC4 (cid : Nat) (nm : String) : Candidate :=
  { id := cid, position_id := 1, full_name := nm, batch_year := 2020,
    campus_chapter := "", contact_email := "", contact_phone := "",
    bio := "", photo := none, is_official := true, source_nomination := none }

/-- The spec scenario for C4: position President with two official
candidates tied at 5 votes each and one at 3 votes. -/
def cStoreC4 : Store :=
  { elections := [cElectionC4],
    positions := [cPosC4],
    candidates := [mkCandC4 1 "Alice", mkCandC4 2 "Bob", mkCandC4 3 "Cara"],
    voters := [],
    nominations := [],
    votes := [mkVoteC4 1 1, mkVoteC4 2 1, mkVoteC4 3 1, mkVoteC4 4 1,
      mkVoteC4 5 1, mkVoteC4 6 2, mkVoteC4 7 2, mkVoteC4 8 2, mkVoteC4 9 2,
      mkVoteC4 10 2, mkVoteC4 11 3, mkVoteC4 12 3, mkVoteC4 13 3] }

/-- The Alice entry of the C4 payload: 5 votes, tied at the maximum, winner. -/
def cEntryC4 : ResultEntry :=
  { id := 1, full_name := "Alice", batch_year := 2020, campus_chapter := "",
    votes := 5, winner := true }

/-- The Bob entry of the C4 payload: 5 votes, tied at the maximum, winner. -/
def cEntryBobC4 : ResultEntry :=
  { id := 2, full_name := "Bob", batch_year := 2020, campus_chapter := "",
    votes := 5, winner := true }

/-- The Cara entry of the C4 payload: 3 votes, not a winner. -/
def cEntryCaraC4 : ResultEntry :=
  { id := 3, full_name := "Cara", batch_year := 2020, campus_chapter := "",
    votes := 3, winner := false }

/-- The President block of the C4 payload. -/
def cPRC4 : PositionResult :=
  { position_id := 1, position := "president",
    candidates := [cEntryC4, cEntryBobC4, cEntryCaraC4] }

/-- The payload computed for the C4 scenario store. -/
def cPayloadC4 : List PositionResult := [cPRC4]

theorem C4_witness :
    cEntryC4.winner = true ↔
      (0 < maxVotes cPRC4 ∧ cEntryC4.votes = maxVotes cPRC4) :=
  (C4_winner_flag cStoreC4).2 cPayloadC4 cPRC4 cEntryC4 rfl
    (by unfold cPayloadC4; exact List.mem_singleton_self _)
    (by unfold cPRC4; exact List.mem_cons_self _ _)

/-- The fallback `Election.objects.order_by("-nomination_start",
"-id").first()` (`elections/views.py` line 747): the election maximal in
the lexicographic (nomination_start, id) order. -/
def latest_election (s : Store) : Option Election :=
  s.elections.foldl
    (fun acc e =>
      match acc with
      | none => some e
      | some b =>
        if b.nomination_start < e.nomination_start
            ∨ (b.nomination_start = e.nomination_start ∧ b.id < e.id)
        then some e else some b)
    none

/-- The election selection `get_active_election() or
Election.objects.order_by("-nomination_start", "-id").first()` used by the
admin reset and publish views (`elections/views.py` lines 686 and 747). -/
def active_or_latest_election (s : Store) : Option Election :=
  match get_active_election s with
  | some e => some e
  | none => latest_election s

/-- First committed statement of admin_reset_election
(`elections/views.py` lines 751-752):
`Vote.objects.filter(position__in=positions).delete()` where `positions`
are ALL positions of the target election (active or not). The view runs
with no surrounding transaction, so this delete commits on its own. -/
def delete_votes_step (s : Store) (e : Election) : Store :=
  { s with votes :=
      s.votes.filter (fun w =>
                        !(s.positions.any (fun p =>
                            p.election_id == e.id && p.id == w.position_id))) }

/-- Second committed statement of admin_reset_election
(`elections/views.py` line 753):
`Nomination.objects.filter(election=election).delete()`. -/
def delete_noms_step (s : Store) (e : Election) : Store :=
  { s with nominations :=
      s.nominations.filter (fun n => !(n.election_id == e.id)) }

/-- The per-voter reset of admin_reset_election
(`elections/views.py` lines 756-760): clear has_voted and session_token,
set is_active true. -/
def reset_voter_row (v : Voter) : Voter :=
  { v with has_voted := false, session_token := none, is_active := true }

/-- The voter loop of admin_reset_election (`elections/views.py` lines
755-760); each `v.save()` is its own committed statement. -/
def reset_voters_step (s : Store) : Store :=
  { s with voters := s.voters.map reset_voter_row }

/-- admin_reset_election (`elections/views.py` lines 737-770): final state
after all statements have run; `none` models the 404 when no election
exists. -/
def admin_reset_election (s : Store) : Option Store :=
  (active_or_latest_election s).map
    (fun e => reset_voters_step (delete_noms_step (delete_votes_step s e) e))

/-- The sequence of durable states admin_reset_election moves through. The
view body has no `transaction.atomic()` wrapper, so every ORM statement
commits as it executes (Django autocommit); a crash between statements
leaves the store in the state reached so far. The voter loop is itself one
committed statement per voter; its first durable state already suffices for
the atomicity analysis, so the loop is kept as one step here. -/
def admin_reset_election_steps (s : Store) : List Store :=
  match active_or_latest_election s with
  | none => []
  | some e =>
    [delete_votes_step s e,
     delete_noms_step (delete_votes_step s e) e,
     reset_voters_step (delete_noms_step (delete_votes_step s e) e)]

/-- C5 as amended: admin_reset_election deletes exactly the Votes whose
position belongs to the target election and the Nominations of that
election, resets every voter row, and touches neither Candidates nor
Elections nor Positions. (The atomicity half of the original claim is
refuted separately.) -/
theorem C5_reset_effect (s : Store) (e : Election)
    (h : active_or_latest_election s = some e) :
    ∀ t, admin_reset_election s = some t →
      t.votes = s.votes.filter
        (fun w => !(s.positions.any
          (fun p => p.election_id == e.id && p.id == w.position_id))) ∧
      t.nominations = s.nominations.filter
        (fun n => !(n.election_id == e.id)) ∧
      t.voters = s.voters.map reset_voter_row ∧
      t.candidates = s.candidates ∧
      t.elections = s.elections ∧
      t.positions = s.positions := by
  intro t ht
  simp only [admin_reset_election, h, Option.map] at ht
  injection ht with ht
  subst ht
  exact ⟨rfl, rfl, rfl, rfl, rfl, rfl⟩

/-- Election of the C5 concrete store: the single active election. -/
def cElectionC5 : Election :=
  { id := 1, name := "E", nomination_start := 0, nomination_end := 1,
    voting_start := 2, voting_end := 3, results_at := none,
    results_published := false, results_published_at := none,
    is_active := true }

/-- Position of the C5 concrete store. -/
def cPosC5 : Position :=
  { id := 1, election_id := 1, name := "president", is_active := true,
    seats := 1, display_order := 0 }

/-- Nomination of the C5 concrete store, belonging to the election. -/
def cNomC5 : Nomination :=
  { id := 1, election_id := 1, position_id := 1, nominator_id := 9,
    nominee_full_name := "Nora", nominee_batch_year := 2020,
    nominee_campus_chapter := "", contact_email := "", contact_phone := "",
    reason := "", nominee_photo := none, is_good_standing := false,
    promoted := false, promoted_at := none }

/-- Voter of the C5 concrete store, flagged as having voted. -/
def cVoterC5 : Voter :=
  { id := 9, voter_id := "HCAD-0009", name := "V", privacy_consent := true,
    pin := "x", has_voted := true, is_active := true,
    session_token := some "tk5" }

/-- Concrete store for C5: one vote and one nomination scoped to the active
election, one voter with has_voted set. -/
def cStoreC5 : Store :=
  { elections := [cElectionC5],
    positions := [cPosC5],
    candidates := [],
    voters := [cVoterC5],
    nominations := [cNomC5],
    votes := [{ voter_id := 9, position_id := 1, candidate_id := 4 }] }

/-- The durable state after the first statement of the reset at the C5
store: votes deleted, nomination still present, voter not yet reset. -/
def cStep1C5 : Store :=
  (admin_reset_election_steps cStoreC5).headD cStoreC5

/-- C5 counterexample to the atomicity half of the claim: the view body has
no transaction, so the state reached after the votes delete is durable (a
failure before the next statement leaves it behind), and that state is
neither the initial store nor the final one -- a partial reset, which the
claim says cannot exist. -/
theorem C5_not_atomic_counterexample :
    (admin_reset_election_steps cStoreC5).get? 0 = some cStep1C5 ∧
    cStep1C5 ≠ cStoreC5 ∧
    admin_reset_election cStoreC5 ≠ some cStep1C5 := by
  refine ⟨rfl, ?_, ?_⟩
  · decide
  · decide

/-- The final store of the reset at the C5 concrete store. -/
def cFinalC5 : Store :=
  (admin_reset_election cStoreC5).getD cStoreC5

theorem C5_witness :
    cFinalC5.voters = cStoreC5.voters.map reset_voter_row ∧
    cFinalC5.candidates = cStoreC5.candidates ∧
    cFinalC5.nominations = cStoreC5.nominations.filter
      (fun n => !(n.election_id == cElectionC5.id)) :=
  ⟨(C5_reset_effect cStoreC5 cElectionC5 rfl cFinalC5 rfl).2.2.1,
   (C5_reset_effect cStoreC5 cElectionC5 rfl cFinalC5 rfl).2.2.2.1,
   (C5_reset_effect cStoreC5 cElectionC5 rfl cFinalC5 rfl).2.1⟩

/-- Modelled from the spec: the route `admin/end-election/` is declared in
`elections/urls.py` line 40 as `views.admin_end_election`, but no function
of that name exists in `elections/views.py`; the implementation is missing
from the repository. Following spec section 4.5: sets `is_active = false`
and clamps `voting_end` to `now` if it is still in the future; never
extends a window; fails NoActiveElection if no election is active. -/
def end_election_update (e : Election) (now : Int) : Election :=
  { e with
    is_active := false,
    voting_end := if now < e.voting_end then now else e.voting_end }

/-- Modelled from the spec: the store-level endElection operation (see
`end_election_update`); applies the update to the active election, or
fails NoActiveElection when none is active. -/
def admin_end_election (s : Store) (now : Int) : Option ApiError × Store :=
  match get_active_election s with
  | none => (some .noActiveElection, s)
  | some e =>
    (none, { s with elections :=
        s.elections.map (fun x =>
          if x.id = e.id then end_election_update x now else x) })

/-- C6: with an active election, endElection succeeds, clears its is_active
flag and clamps voting_end to now when voting_end is still in the future,
never moving it later; with no active election it fails NoActiveElection. -/
theorem C6_end_election_clamps (s : Store) (now : Int) :
    (get_active_election s = none →
      admin_end_election s now = (some .noActiveElection, s)) ∧
    (∀ e, get_active_election s = some e →
      (admin_end_election s now).1 = none ∧
      (end_election_update e now).is_active = false ∧
      (end_election_update e now).voting_end ≤ e.voting_end ∧
      (now < e.voting_end → (end_election_update e now).voting_end = now) ∧
      (e.voting_end ≤ now →
        (end_election_update e now).voting_end = e.voting_end) ∧
      (admin_end_election s now).2 =
        { s with elections :=
            s.elections.map (fun x =>
              if x.id = e.id then end_election_update x now else x) }) := by
  constructor
  · intro h
    simp [admin_end_election, h]
  · intro e he
    refine ⟨?_, rfl, ?_, ?_, ?_, ?_⟩
    · simp [admin_end_election, he]
    · simp only [end_election_update]
      split
      · omega
      · omega
    · intro h
      simp [end_election_update, h]
    · intro h
      simp only [end_election_update]
      rw [if_neg (by omega)]
    · simp [admin_end_election, he]

/-- Concrete store for C6: one active election whose voting_end lies in the
future of the call time 50. -/
def cElectionC6 : Election :=
  { id := 1, name := "E", nomination_start := 0, nomination_end := 1,
    voting_start := 2, voting_end := 100, results_at := none,
    results_published := false, results_published_at := none,
    is_active := true }

/-- Store wrapping the C6 election. -/
def cStoreC6 : Store :=
  { elections := [cElectionC6], positions := [], candidates := [],
    voters := [], nominations := [], votes := [] }

/-- The state update of admin_publish_results
(`elections/views.py` lines 690-697): `publish=true` sets
`results_published` and stamps `results_published_at = timezone.now()`;
`publish=false` clears both. -/
def publish_update (e : Election) (flag : Bool) (now : Int) : Election :=
  if flag then
    { e with results_published := true, results_published_at := some now }
  else
    { e with results_published := false, results_published_at := none }

/-- admin_publish_results (`elections/views.py` lines 676-699) at store
level: applies `publish_update` to the active-or-latest election; `none`
models the 404 when no election exists. Admin authentication is the outer
guard and is outside the claim. -/
def admin_publish_results (s : Store) (flag : Bool) (now : Int) :
    Option Store :=
  (active_or_latest_election s).map (fun e =>
    { s with elections :=
        s.elections.map (fun x =>
          if x.id = e.id then publish_update x flag now else x) })

/-- Election of the C7 counterexample: not yet published. -/
def cElectionC7 : Election :=
  { id := 1, name := "E", nomination_start := 0, nomination_end := 1,
    voting_start := 2, voting_end := 3, results_at := none,
    results_published := false, results_published_at := none,
    is_active := true }

/-- C7 counterexample: `publish(true)` at time 1 followed by `publish(true)`
at time 2 does not leave the election in the state of a single call --
the second call re-stamps `results_published_at` to its own call time, so
the state after two calls differs from the state after one. -/
theorem C7_restamp_counterexample :
    publish_update (publish_update cElectionC7 true 1) true 2 ≠
        publish_update cElectionC7 true 1 ∧
    (publish_update (publish_update cElectionC7 true 1) true 2).results_published_at
        = some 2 ∧
    (publish_update cElectionC7 true 1).results_published_at = some 1 := by
  refine ⟨?_, rfl, rfl⟩
  decide

/-- C7 as amended: repeating `publish(flag)` is equivalent to the last call
alone -- so a repeated call at the same time changes nothing, and
`publish(false)` is fully idempotent, while `publish(true)` re-stamps
`results_published_at` to each call time; `publish(true)` sets
`results_published` with a timestamp and `publish(false)` clears both. -/
theorem C7_publish_last_write_wins (e : Election) (flag : Bool)
    (t1 t2 : Int) :
    publish_update (publish_update e flag t1) flag t2 =
        publish_update e flag t2 ∧
    (publish_update e true t1).results_published = true ∧
    (publish_update e true t1).results_published_at = some t1 ∧
    (publish_update e false t1).results_published = false ∧
    (publish_update e false t1).results_published_at = none := by
  refine ⟨?_, rfl, rfl, rfl, rfl⟩
  cases flag
  · rfl
  · rfl

theorem C6_witness :
    (admin_end_election cStoreC6 50).1 = none ∧
    (end_election_update cElectionC6 50).is_active = false ∧
    (end_election_update cElectionC6 50).voting_end = 50 :=
  ⟨((C6_end_election_clamps cStoreC6 50).2 cElectionC6 rfl).1,
   ((C6_end_election_clamps cStoreC6 50).2 cElectionC6 rfl).2.1,
   ((C6_end_election_clamps cStoreC6 50).2 cElectionC6 rfl).2.2.2.1
     (by decide)⟩

/-- Result of the admin promote view
(`elections/views.py` lines 543-576). -/
inductive PromoteResult where
  | ok (c : Candidate) (created : Bool)
  | err (e : ApiError)
deriving DecidableEq

/-- The lookup key of `Candidate.objects.get_or_create(position=...,
full_name=..., defaults=...)` (`elections/views.py` lines 555-557): the
candidate rows matching the (position, full name) pair. -/
def candidates_for (cands : List Candidate) (pid : Nat) (nm : String) :
    List Candidate :=
  cands.filter (fun c => c.position_id == pid && c.full_name == nm)

/-- The database id the created candidate row receives (autoincrement). -/
def next_candidate_id (s : Store) : Nat :=
  (s.candidates.map (fun c => c.id)).foldl Nat.max 0 + 1

/-- The candidate row `get_or_create` builds from its `defaults` when no
match exists (`elections/views.py` lines 558-567). -/
def promoted_candidate_row (s : Store) (nom : Nomination) : Candidate :=
  { id := next_candidate_id s, position_id := nom.position_id,
    full_name := nom.nominee_full_name,
    batch_year := nom.nominee_batch_year,
    campus_chapter := nom.nominee_campus_chapter,
    contact_email := nom.contact_email, contact_phone := nom.contact_phone,
    bio := nom.reason, photo := nom.nominee_photo, is_official := true,
    source_nomination := some nom.id }

/-- The write `nomination.promoted = True; nomination.promoted_at =
timezone.now(); nomination.save(...)` (`elections/views.py` lines
569-571). -/
def mark_promoted (s : Store) (nid : Nat) (now : Int) : Store :=
  { s with nominations :=
      s.nominations.map (fun n =>
        if n.id = nid then { n with promoted := true, promoted_at := some now }
        else n) }

/-- admin_promote_nomination (`elections/views.py` lines 543-576) on the
authenticated-admin path: look the Nomination up (404 when absent), then
`get_or_create` the Candidate -- reuse the unique (position, full name)
match, create from the defaults when there is none, and raise
MultipleObjectsReturned (rolled back by the atomic block to a generic
server error) when several match -- and finally mark the nomination
promoted. -/
def promote (s : Store) (nid : Nat) (now : Int) : PromoteResult × Store :=
  match s.nominations.find? (fun n => n.id == nid) with
  | none => (.err .notFound, s)
  | some nom =>
    match candidates_for s.candidates nom.position_id nom.nominee_full_name with
    | [] =>
      (.ok (promoted_candidate_row s nom) true,
       mark_promoted
         { s with candidates := s.candidates ++ [promoted_candidate_row s nom] }
         nid now)
    | [c] => (.ok c false, mark_promoted s nid now)
    | _ :: _ :: _ => (.err .multipleObjects, s)

/-- Mapping a function that preserves a boolean predicate commutes with
`find?`. -/
theorem find_map_congr {α : Type} (g : α → α) (p : α → Bool)
    (hp : ∀ a, p (g a) = p a) :
    ∀ l : List α, (l.map g).find? p = (l.find? p).map g := by
  intro l
  induction l with
  | nil => rfl
  | cons a t ih =>
    cases hpa : p a with
    | true =>
      rw [List.find?_cons_of_pos _ hpa, List.map_cons,
        List.find?_cons_of_pos _ (by rw [hp a]; exact hpa)]
      rfl
    | false =>
      rw [List.find?_cons_of_neg _ (by simp [hpa]), List.map_cons,
        List.find?_cons_of_neg _ (by simp [hp a, hpa])]
      exact ih

/-- C8: promote fails NotFound on an unknown nomination id; and after a
successful promotion, promoting the same nomination again creates no new
Candidate row (the existing one is reused, `created = false`) and exactly
one Candidate with the nomination's (position, full name) key remains. -/
theorem C8_promote_idempotent (s : Store) (nid : Nat) (t1 t2 : Int) :
    (s.nominations.find? (fun n => n.id == nid) = none →
      promote s nid t1 = (.err .notFound, s)) ∧
    (∀ nom c created s1,
      s.nominations.find? (fun n => n.id == nid) = some nom →
      promote s nid t1 = (.ok c created, s1) →
      (candidates_for s1.candidates nom.position_id
          nom.nominee_full_name).length = 1 ∧
      (∃ c2, (promote s1 nid t2).1 = .ok c2 false) ∧
      (promote s1 nid t2).2.candidates = s1.candidates) := by
  constructor
  · intro h
    simp [promote, h]
  · intro nom c created s1 hfind hp
    have hid : nom.id = nid := by
      have := List.find?_some hfind
      simpa using this
    have hg : ∀ n : Nomination,
        ((fun n : Nomination => n.id == nid)
          (if n.id = nid
            then { n with promoted := true, promoted_at := some t1 } else n))
        = (fun n : Nomination => n.id == nid) n := by
      intro n
      by_cases h : n.id = nid
      · simp [h]
      · simp [h]
    simp only [promote, hfind] at hp
    cases hmat : candidates_for s.candidates nom.position_id
        nom.nominee_full_name with
    | nil =>
      rw [hmat] at hp
      have hc : c = promoted_candidate_row s nom := by
        have := congrArg Prod.fst hp
        simp at this
        exact this.1.symm
      have hs1 : s1 = mark_promoted
          { s with candidates := s.candidates ++ [promoted_candidate_row s nom] }
          nid t1 := by
        have := congrArg Prod.snd hp
        simpa using this.symm
      subst hs1
      have hfind1 : (mark_promoted
          { s with candidates := s.candidates ++ [promoted_candidate_row s nom] }
          nid t1).nominations.find? (fun n => n.id == nid)
          = some { nom with promoted := true, promoted_at := some t1 } := by
        simp only [mark_promoted]
        rw [find_map_congr _ _ hg, hfind]
        simp [hid]
      have hmat1 : candidates_for (mark_promoted
          { s with candidates := s.candidates ++ [promoted_candidate_row s nom] }
          nid t1).candidates nom.position_id nom.nominee_full_name
          = [promoted_candidate_row s nom] := by
        simp only [mark_promoted, candidates_for]
        rw [List.filter_append]
        have h1 : List.filter
            (fun c => c.position_id == nom.position_id
              && c.full_name == nom.nominee_full_name) s.candidates = [] := by
          simpa [candidates_for] using hmat
        rw [h1]
        simp [promoted_candidate_row]
      refine ⟨?_, ?_, ?_⟩
      · rw [hmat1]
        rfl
      · refine ⟨promoted_candidate_row s nom, ?_⟩
        simp only [promote, hfind1]
        rw [show candidates_for (mark_promoted
            { s with candidates := s.candidates ++ [promoted_candidate_row s nom] }
            nid t1).candidates
            ({ nom with promoted := true, promoted_at := some t1
              } : Nomination).position_id
            ({ nom with promoted := true, promoted_at := some t1
              } : Nomination).nominee_full_name
            = [promoted_candidate_row s nom] from hmat1]
      · simp only [promote, hfind1]
        rw [show candidates_for (mark_promoted
            { s with candidates := s.candidates ++ [promoted_candidate_row s nom] }
            nid t1).candidates
            ({ nom with promoted := true, promoted_at := some t1
              } : Nomination).position_id
            ({ nom with promoted := true, promoted_at := some t1
              } : Nomination).nominee_full_name
            = [promoted_candidate_row s nom] from hmat1]
        rfl
    | cons c0 tail =>
      cases tail with
      | nil =>
        rw [hmat] at hp
        have hs1 : s1 = mark_promoted s nid t1 := by
          have := congrArg Prod.snd hp
          simpa using this.symm
        subst hs1
        have hfind1 : (mark_promoted s nid t1).nominations.find?
            (fun n => n.id == nid)
            = some { nom with promoted := true, promoted_at := some t1 } := by
          simp only [mark_promoted]
          rw [find_map_congr _ _ hg, hfind]
          simp [hid]
        have hmat1 : candidates_for (mark_promoted s nid t1).candidates
            nom.position_id nom.nominee_full_name = [c0] := by
          simpa [mark_promoted, candidates_for] using hmat
        refine ⟨?_, ?_, ?_⟩
        · rw [hmat1]
          rfl
        · refine ⟨c0, ?_⟩
          simp only [promote, hfind1]
          rw [show candidates_for (mark_promoted s nid t1).candidates
              ({ nom with promoted := true, promoted_at := some t1
                } : Nomination).position_id
              ({ nom with promoted := true, promoted_at := some t1
                } : Nomination).nominee_full_name = [c0] from hmat1]
        · simp only [promote, hfind1]
          rw [show candidates_for (mark_promoted s nid t1).candidates
              ({ nom with promoted := true, promoted_at := some t1
                } : Nomination).position_id
              ({ nom with promoted := true, promoted_at := some t1
                } : Nomination).nominee_full_name = [c0] from hmat1]
          rfl
      | cons c1 tail2 =>
        rw [hmat] at hp
        exact absurd (congrArg Prod.fst hp) (by simp)

/-- Nomination of the C8 concrete store. -/
def cNomC8 : Nomination :=
  { id := 1, election_id := 1, position_id := 1, nominator_id := 9,
    nominee_full_name := "Nora", nominee_batch_year := 2020,
    nominee_campus_chapter := "", contact_email := "", contact_phone := "",
    reason := "", nominee_photo := none, is_good_standing := false,
    promoted := false, promoted_at := none }

/-- Concrete store for C8: one unpromoted nomination, no candidates yet. -/
def cStoreC8 : Store :=
  { elections := [], positions := [], candidates := [], voters := [],
    nominations := [cNomC8], votes := [] }

/-- The candidate the first promotion creates at the C8 store. -/
def cCandNewC8 : Candidate := promoted_candidate_row cStoreC8 cNomC8

/-- The store after the first promotion at the C8 store. -/
def cS1C8 : Store := (promote cStoreC8 1 10).2

theorem C8_witness :
    (candidates_for cS1C8.candidates cNomC8.position_id
        cNomC8.nominee_full_name).length = 1 ∧
    (∃ c2, (promote cS1C8 1 20).1 = .ok c2 false) ∧
    (promote cS1C8 1 20).2.candidates = cS1C8.candidates :=
  (C8_promote_idempotent cStoreC8 1 10 20).2 cNomC8 cCandNewC8 true cS1C8
    rfl rfl

/-- Round-half-to-even on an exact rational, the rounding rule of the
Python built-in `round`. -/
def roundHalfEven (x : ℚ) : Int :=
  if x - x.floor < 1 / 2 then x.floor
  else if (1 : ℚ) / 2 < x - x.floor then x.floor + 1
  else if x.floor % 2 = 0 then x.floor
  else x.floor + 1

/-- Python `round(x, 2)` over exact rationals: round half to even at two
decimal places. The view computes in floating point; the claims concern
the formula, which this exact-arithmetic embedding realises. -/
def pyRound2 (x : ℚ) : ℚ := (roundHalfEven (x * 100) : ℚ) / 100

/-- The response of admin_stats (`elections/views.py` lines 510-526). -/
structure Stats where
  total_voters : Nat
  voted_count : Nat
  turnout_percent : ℚ
deriving DecidableEq

/-- admin_stats (`elections/views.py` lines 510-526):
`total_voters = Voter.objects.count()`,
`voted_count = Voter.objects.filter(has_voted=True).count()`,
`turnout_percent = round(voted_count / total_voters * 100, 2) if
total_voters else 0.0`. -/
def admin_stats (voters : List Voter) : Stats :=
  { total_voters := voters.length,
    voted_count := (voters.filter (fun v => v.has_voted)).length,
    turnout_percent :=
      if voters.length = 0 then 0
      else
        pyRound2 (((voters.filter (fun v => v.has_voted)).length : ℚ)
          / (voters.length : ℚ) * 100) }

/-- C9: turnout_percent is votedCount / totalVoters * 100 rounded to two
decimal places, where votedCount counts the voters with has_voted and
totalVoters counts all voters; it is exactly 0 when there are no voters,
with no division performed. -/
theorem C9_turnout_formula (voters : List Voter) :
    ((admin_stats voters).total_voters = voters.length) ∧
    ((admin_stats voters).voted_count =
      (voters.filter (fun v => v.has_voted)).length) ∧
    (voters.length = 0 → (admin_stats voters).turnout_percent = 0) ∧
    (0 < voters.length →
      (admin_stats voters).turnout_percent =
        pyRound2 (((voters.filter (fun v => v.has_voted)).length : ℚ)
          / (voters.length : ℚ) * 100)) := by
  refine ⟨rfl, rfl, ?_, ?_⟩
  · intro h
    simp [admin_stats, h]
  · intro h
    have hne : voters.length ≠ 0 := by omega
    simp [admin_stats, hne]

/-- Voter roll of the C9 concrete input: one of two voters has voted. -/
def cVotersC9 : List Voter :=
  [{ id := 1, voter_id := "HCAD-0001", name := "A", privacy_consent := true,
     pin := "x", has_voted := true, is_active := true,
     session_token := none },
   { id := 2, voter_id := "HCAD-0002", name := "B", privacy_consent := true,
     pin := "x", has_voted := false, is_active := true,
     session_token := none }]

theorem C9_witness :
    (admin_stats cVotersC9).turnout_percent =
      pyRound2 (((cVotersC9.filter (fun v => v.has_voted)).length : ℚ)
        / (cVotersC9.length : ℚ) * 100) :=
  (C9_turnout_formula cVotersC9).2.2.2 (by decide)
